import Mathlib

/-!
Shallow embedding of `src/sdk/src/record-provider.ts` (the `NetworkRecordProvider`
class, its `RecordProvider` interface and the `BlockHeightSearch` value object).

JavaScript values reachable through the open `RecordSearchParams` bag are modelled
by `JSValue`; truthiness and the `typeof x == "number"` test are modelled by
`truthy` and `isNumberType`.  An `async` method either resolves to its declared
value type or rejects with a thrown JavaScript value (`Outcome`).  Collaborator
interactions are recorded in a `Trace` so that call-count properties can be
stated.  The network client is a deterministic collaborator supplied as data.
-/

namespace Sdk

/-- A JavaScript value as far as this module inspects values: numbers, strings,
booleans, `undefined` and `null`. -/
inductive JSValue where
  | num (n : Int)
  | str (s : String)
  | boolean (b : Bool)
  | undefined
  | null
deriving DecidableEq, Repr

/-- JavaScript truthiness of a `JSValue` (0, the empty string, `false`,
`undefined` and `null` are falsy). -/
def truthy : JSValue → Bool
  | .num n => decide (n ≠ 0)
  | .str s => decide (s ≠ "")
  | .boolean b => b
  | .undefined => false
  | .null => false

/-- The test `typeof v == "number"` from the source. -/
def isNumberType : JSValue → Bool
  | .num _ => true
  | _ => false

/-- `RecordSearchParams` is an open key-value bag (record-provider.ts, lines 9-11);
indexing a missing key yields `undefined`, so the bag is a total function from
string keys to values. -/
def RecordSearchParams : Type := String → JSValue

/-- A JavaScript `Error` object, identified by its message. -/
structure Error where
  message : String
deriving DecidableEq, Repr

/-- An opaque decrypted record; the only field this module ever consumes is the
nonce identifier. -/
structure RecordPlaintext where
  nonce : String
deriving DecidableEq, Repr

/-- The injected account; `privateKey` models the `privateKey()` accessor used at
record-provider.ts line 200. -/
structure Account where
  privateKey : String
deriving DecidableEq, Repr

/-- The arguments of one call to the network client `findUnspentRecords`
operation, in source order: start height, end height, private credential,
requested amounts, program filter, exclusion nonces.  The two heights are
`JSValue`s because the JavaScript locals can receive any value stored in the
search-parameter bag. -/
structure FindUnspentQuery where
  startHeight : JSValue
  endHeight : JSValue
  privateKey : String
  amounts : List Int
  programFilter : Option String
  nonces : Option (List String)
deriving DecidableEq, Repr

/-- The deterministic ledger-query collaborator (`AleoNetworkClient`): the two
operations this module calls, each returning its declared value-or-Error. -/
structure AleoNetworkClient where
  getLatestHeight : Except Error Int
  findUnspentRecords : JSValue → JSValue → String → List Int → Option String →
    Option (List String) → Except Error (List RecordPlaintext)

/-- A value thrown by JavaScript code: either a plain string (the
`throw "Unable to get current block height"` at line 194) or an `Error` object
(the `throw new Error(...)` at lines 225 and 232). -/
inductive JSThrown where
  | strVal (s : String)
  | errVal (e : Error)
deriving DecidableEq, Repr

/-- The outcome of an `async` method: resolved with a value, or rejected with a
thrown value. -/
inductive Outcome (α : Type) where
  | ok (v : α)
  | exn (t : JSThrown)
deriving DecidableEq, Repr

/-- Whether an outcome is a rejection. -/
def Outcome.isThrown {α : Type} : Outcome α → Bool
  | .ok _ => false
  | .exn _ => true

instance {ε α : Type} [DecidableEq ε] [DecidableEq α] : DecidableEq (Except ε α)
  | .error e, .error e' =>
    if h : e = e' then .isTrue (congrArg Except.error h)
    else .isFalse (fun hh => h (Except.error.inj hh))
  | .error _, .ok _ => .isFalse (fun hh => Except.noConfusion hh)
  | .ok _, .error _ => .isFalse (fun hh => Except.noConfusion hh)
  | .ok v, .ok v' =>
    if h : v = v' then .isTrue (congrArg Except.ok h)
    else .isFalse (fun hh => h (Except.ok.inj hh))

/-- A record of the collaborator interactions performed during one call. -/
structure Trace where
  latestHeightCalls : Nat
  unspentQueries : List FindUnspentQuery
deriving DecidableEq, Repr

/-- The `NetworkRecordProvider` state: the injected account and network client
(record-provider.ts, lines 134-140). -/
structure NetworkRecordProvider where
  account : Account
  networkClient : AleoNetworkClient

/-- `setAccount` (record-provider.ts, lines 147-149): replace the stored
account. -/
def NetworkRecordProvider.setAccount (p : NetworkRecordProvider) (account : Account) :
    NetworkRecordProvider :=
  { p with account := account }

/-- `findCreditsRecords` (record-provider.ts, lines 179-201), translated
statement by statement.  `startHeight` and `endHeight` start as the number 0;
only when `searchParameters` is present is the height-resolution block entered.
The condition guarding the `startHeight` assignment tests
`typeof searchParameters["endHeight"]` exactly as the source does.  The result
pairs the outcome with the trace of collaborator calls. -/
def NetworkRecordProvider.findCreditsRecords (p : NetworkRecordProvider)
    (creditAmounts : List Int) (unspent : Bool)
    (nonces : Option (List String)) (searchParameters : Option RecordSearchParams) :
    Outcome (Except Error (List RecordPlaintext)) × Trace :=
  let startHeight : JSValue := .num 0
  let endHeight : JSValue := .num 0
  match searchParameters with
  | some sp =>
    let startHeight : JSValue :=
      if truthy (sp "startHeight") && isNumberType (sp "endHeight") then
        sp "startHeight"
      else startHeight
    if truthy (sp "endHeight") && isNumberType (sp "endHeight") then
      let endHeight : JSValue := sp "endHeight"
      (.ok (p.networkClient.findUnspentRecords startHeight endHeight
          p.account.privateKey creditAmounts none nonces),
       ⟨0, [⟨startHeight, endHeight, p.account.privateKey, creditAmounts, none, nonces⟩]⟩)
    else
      match p.networkClient.getLatestHeight with
      | .error _ =>
        (.exn (.strVal "Unable to get current block height"), ⟨1, []⟩)
      | .ok e =>
        let endHeight : JSValue := .num e
        (.ok (p.networkClient.findUnspentRecords startHeight endHeight
            p.account.privateKey creditAmounts none nonces),
         ⟨1, [⟨startHeight, endHeight, p.account.privateKey, creditAmounts, none, nonces⟩]⟩)
  | none =>
    (.ok (p.networkClient.findUnspentRecords startHeight endHeight
        p.account.privateKey creditAmounts none nonces),
     ⟨0, [⟨startHeight, endHeight, p.account.privateKey, creditAmounts, none, nonces⟩]⟩)

/-- `findCreditsRecord` (record-provider.ts, lines 212-219): delegate to the
batch search with a singleton amount list; an awaited rejection propagates; a
resolved non-Error list with at least one element yields its first element;
anything else yields `Error("Record not found")`. -/
def NetworkRecordProvider.findCreditsRecord (p : NetworkRecordProvider)
    (creditAmount : Int) (unspent : Bool)
    (nonces : Option (List String)) (searchParameters : Option RecordSearchParams) :
    Outcome (Except Error RecordPlaintext) × Trace :=
  match p.findCreditsRecords [creditAmount] unspent nonces searchParameters with
  | (.exn t, tr) => (.exn t, tr)
  | (.ok (.ok records), tr) =>
    match records with
    | r :: _ => (.ok (.ok r), tr)
    | [] => (.ok (.error ⟨"Record not found"⟩), tr)
  | (.ok (.error _), tr) => (.ok (.error ⟨"Record not found"⟩), tr)

/-- `findRecord` (record-provider.ts, lines 224-226): always throws
`Error("Method not implemented.")`; no collaborator call is made. -/
def NetworkRecordProvider.findRecord (p : NetworkRecordProvider) (unspent : Bool)
    (nonces : Option (List String)) (searchParameters : Option RecordSearchParams) :
    Outcome (Except Error RecordPlaintext) × Trace :=
  (.exn (.errVal ⟨"Method not implemented."⟩), ⟨0, []⟩)

/-- `findRecords` (record-provider.ts, lines 231-233): always throws
`Error("Method not implemented.")`; no collaborator call is made. -/
def NetworkRecordProvider.findRecords (p : NetworkRecordProvider) (unspent : Bool)
    (nonces : Option (List String)) (searchParameters : Option RecordSearchParams) :
    Outcome (Except Error (List RecordPlaintext)) × Trace :=
  (.exn (.errVal ⟨"Method not implemented."⟩), ⟨0, []⟩)

/-- `BlockHeightSearch` (record-provider.ts, lines 255-262): a plain value
object carrying a start and end height. -/
structure BlockHeightSearch where
  startHeight : Int
  endHeight : Int
deriving DecidableEq, Repr

/-- A `BlockHeightSearch` viewed as the search-parameter bag it populates. -/
def BlockHeightSearch.toParams (b : BlockHeightSearch) : RecordSearchParams :=
  fun k =>
    if k = "startHeight" then .num b.startHeight
    else if k = "endHeight" then .num b.endHeight
    else .undefined

/-- Whether a given `searchParameters` argument sends `findCreditsRecords` into
the chain-tip fallback branch: the bag is present and its `endHeight` entry is
not a truthy number. -/
def fallbackFires : Option RecordSearchParams → Bool
  | none => false
  | some sp => !(truthy (sp "endHeight") && isNumberType (sp "endHeight"))

/-- Whether the collaborator chain-tip lookup returns an Error. -/
def heightLookupFails (c : AleoNetworkClient) : Bool :=
  match c.getLatestHeight with
  | .ok _ => false
  | .error _ => true

/-- Concrete collaborator: chain tip 50, queries resolve to the empty list. -/
def clientOk : AleoNetworkClient :=
  { getLatestHeight := .ok 50
    findUnspentRecords := fun _ _ _ _ _ _ => .ok [] }

/-- Concrete collaborator whose chain-tip lookup fails. -/
def clientDown : AleoNetworkClient :=
  { getLatestHeight := .error ⟨"connection refused"⟩
    findUnspentRecords := fun _ _ _ _ _ _ => .ok [] }

/-- Concrete collaborator: chain tip 100, queries resolve to one record with
nonce `recA`. -/
def clientRec : AleoNetworkClient :=
  { getLatestHeight := .ok 100
    findUnspentRecords := fun _ _ _ _ _ _ => .ok [⟨"recA"⟩] }

/-- A concrete account for witnesses. -/
def acct : Account := ⟨"APrivateKey1xyz"⟩

/-- Provider over `clientOk`. -/
def P0 : NetworkRecordProvider := ⟨acct, clientOk⟩

/-- Provider over `clientDown`. -/
def PDown : NetworkRecordProvider := ⟨acct, clientDown⟩

/-- Provider over `clientRec`. -/
def PRec : NetworkRecordProvider := ⟨acct, clientRec⟩

/-- The empty search-parameter bag (a present but empty JavaScript object). -/
def emptyParams : RecordSearchParams := fun _ => .undefined

/-- The bag `\x7bstartHeight: 10\x7d` with no `endHeight` entry. -/
def startOnlyParams : RecordSearchParams :=
  fun k => if k = "startHeight" then .num 10 else .undefined

/-- With `searchParameters` absent, `findCreditsRecords` queries the window
`[0, 0]` immediately and performs no chain-tip lookup. -/
theorem findCreditsRecords_none (p : NetworkRecordProvider) (amounts : List Int)
    (u : Bool) (nonces : Option (List String)) :
    p.findCreditsRecords amounts u nonces none =
      (.ok (p.networkClient.findUnspentRecords (.num 0) (.num 0)
          p.account.privateKey amounts none nonces),
       ⟨0, [⟨.num 0, .num 0, p.account.privateKey, amounts, none, nonces⟩]⟩) := rfl

/-- With a present bag whose `endHeight` entry is a truthy number,
`findCreditsRecords` uses that entry as end height and performs no chain-tip
lookup. -/
theorem findCreditsRecords_direct (p : NetworkRecordProvider) (amounts : List Int)
    (u : Bool) (nonces : Option (List String)) (sp : RecordSearchParams)
    (h : (truthy (sp "endHeight") && isNumberType (sp "endHeight")) = true) :
    p.findCreditsRecords amounts u nonces (some sp) =
      (let sh : JSValue :=
        if truthy (sp "startHeight") && isNumberType (sp "endHeight") then
          sp "startHeight"
        else .num 0
       (.ok (p.networkClient.findUnspentRecords sh (sp "endHeight")
           p.account.privateKey amounts none nonces),
        ⟨0, [⟨sh, sp "endHeight", p.account.privateKey, amounts, none, nonces⟩]⟩)) := by
  simp only [NetworkRecordProvider.findCreditsRecords, h, if_true]

/-- With a present bag whose `endHeight` entry is not a truthy number and a
successful chain-tip lookup, `findCreditsRecords` uses the looked-up tip as end
height, with exactly one chain-tip call. -/
theorem findCreditsRecords_fallback_ok (p : NetworkRecordProvider) (amounts : List Int)
    (u : Bool) (nonces : Option (List String)) (sp : RecordSearchParams) (t : Int)
    (h : (truthy (sp "endHeight") && isNumberType (sp "endHeight")) = false)
    (hgl : p.networkClient.getLatestHeight = .ok t) :
    p.findCreditsRecords amounts u nonces (some sp) =
      (let sh : JSValue :=
        if truthy (sp "startHeight") && isNumberType (sp "endHeight") then
          sp "startHeight"
        else .num 0
       (.ok (p.networkClient.findUnspentRecords sh (.num t)
           p.account.privateKey amounts none nonces),
        ⟨1, [⟨sh, .num t, p.account.privateKey, amounts, none, nonces⟩]⟩)) := by
  simp only [NetworkRecordProvider.findCreditsRecords, h, hgl, Bool.false_eq_true, if_false]

/-- With a present bag whose `endHeight` entry is not a truthy number and a
failing chain-tip lookup, `findCreditsRecords` rejects with the string
`Unable to get current block height` and performs no query. -/
theorem findCreditsRecords_fallback_err (p : NetworkRecordProvider) (amounts : List Int)
    (u : Bool) (nonces : Option (List String)) (sp : RecordSearchParams) (e : Error)
    (h : (truthy (sp "endHeight") && isNumberType (sp "endHeight")) = false)
    (hgl : p.networkClient.getLatestHeight = .error e) :
    p.findCreditsRecords amounts u nonces (some sp) =
      (.exn (.strVal "Unable to get current block height"), ⟨1, []⟩) := by
  simp only [NetworkRecordProvider.findCreditsRecords, h, hgl, Bool.false_eq_true, if_false]

/-- Every `findCreditsRecords` call either rejects after a failed chain-tip
lookup, having issued no query, or resolves verbatim to the collaborator answer
for exactly one query built from the resolved heights, the account credential,
the amounts, no program filter and the caller nonces. -/
theorem findCreditsRecords_cases (p : NetworkRecordProvider) (amounts : List Int)
    (u : Bool) (nonces : Option (List String)) (spo : Option RecordSearchParams) :
    p.findCreditsRecords amounts u nonces spo =
        (.exn (.strVal "Unable to get current block height"), ⟨1, []⟩) ∨
    ∃ sh eh c,
      p.findCreditsRecords amounts u nonces spo =
        (.ok (p.networkClient.findUnspentRecords sh eh p.account.privateKey amounts none nonces),
         ⟨c, [⟨sh, eh, p.account.privateKey, amounts, none, nonces⟩]⟩) := by
  rcases spo with _ | sp
  · exact Or.inr ⟨.num 0, .num 0, 0, findCreditsRecords_none p amounts u nonces⟩
  · by_cases h : (truthy (sp "endHeight") && isNumberType (sp "endHeight")) = true
    · refine Or.inr ⟨if truthy (sp "startHeight") && isNumberType (sp "endHeight") then
        sp "startHeight" else .num 0, sp "endHeight", 0, ?_⟩
      exact findCreditsRecords_direct p amounts u nonces sp h
    · rcases hgl : p.networkClient.getLatestHeight with e | t
      · exact Or.inl (findCreditsRecords_fallback_err p amounts u nonces sp e
          (Bool.not_eq_true _ ▸ h) hgl)
      · refine Or.inr ⟨if truthy (sp "startHeight") && isNumberType (sp "endHeight") then
          sp "startHeight" else .num 0, .num t, 1, ?_⟩
        exact findCreditsRecords_fallback_ok p amounts u nonces sp t
          (Bool.not_eq_true _ ▸ h) hgl

/-- The single-record search carries exactly the trace of its singleton batch
call. -/
theorem findCreditsRecord_trace (p : NetworkRecordProvider) (A : Int) (u : Bool)
    (nonces : Option (List String)) (spo : Option RecordSearchParams) :
    (p.findCreditsRecord A u nonces spo).2 =
      (p.findCreditsRecords [A] u nonces spo).2 := by
  unfold NetworkRecordProvider.findCreditsRecord
  rcases h : p.findCreditsRecords [A] u nonces spo with ⟨o, tr⟩
  rcases o with v | t
  · rcases v with e | rs
    · simp
    · rcases rs with _ | ⟨r, rs⟩ <;> simp
  · simp

/-- The single-record search rejects exactly when its singleton batch call
rejects, with the same thrown value. -/
theorem findCreditsRecord_exn (p : NetworkRecordProvider) (A : Int) (u : Bool)
    (nonces : Option (List String)) (spo : Option RecordSearchParams) (t : JSThrown) :
    (p.findCreditsRecord A u nonces spo).1 = .exn t ↔
      (p.findCreditsRecords [A] u nonces spo).1 = .exn t := by
  unfold NetworkRecordProvider.findCreditsRecord
  rcases h : p.findCreditsRecords [A] u nonces spo with ⟨o, tr⟩
  rcases o with v | t'
  · rcases v with e | rs
    · simp
    · rcases rs with _ | ⟨r, rs⟩ <;> simp
  · simp

/-- When the single-record search resolves to a record, that record is the head
of the list its singleton batch call resolved to. -/
theorem findCreditsRecord_ok_head (p : NetworkRecordProvider) (A : Int) (u : Bool)
    (nonces : Option (List String)) (spo : Option RecordSearchParams) (r : RecordPlaintext)
    (h : (p.findCreditsRecord A u nonces spo).1 = .ok (.ok r)) :
    ∃ rest, (p.findCreditsRecords [A] u nonces spo).1 = .ok (.ok (r :: rest)) := by
  unfold NetworkRecordProvider.findCreditsRecord at h
  rcases hb : p.findCreditsRecords [A] u nonces spo with ⟨o, tr⟩
  rw [hb] at h
  rcases o with v | t
  · rcases v with e | rs
    · simp at h
    · rcases rs with _ | ⟨r', rs⟩
      · simp at h
      · simp at h
        exact ⟨rs, by rw [h]⟩
  · simp at h

/-- A `findCreditsRecords` call rejects exactly when the chain-tip fallback
fires and the chain-tip lookup fails. -/
theorem findCreditsRecords_isThrown (p : NetworkRecordProvider) (amounts : List Int)
    (u : Bool) (nonces : Option (List String)) (spo : Option RecordSearchParams) :
    (p.findCreditsRecords amounts u nonces spo).1.isThrown =
      (fallbackFires spo && heightLookupFails p.networkClient) := by
  rcases spo with _ | sp
  · simp [findCreditsRecords_none, Outcome.isThrown, fallbackFires]
  · by_cases h : (truthy (sp "endHeight") && isNumberType (sp "endHeight")) = true
    · rw [findCreditsRecords_direct p amounts u nonces sp h]
      simp [Outcome.isThrown, fallbackFires, h]
    · have h' : (truthy (sp "endHeight") && isNumberType (sp "endHeight")) = false :=
        Bool.not_eq_true _ ▸ h
      rcases hgl : p.networkClient.getLatestHeight with e | t
      · rw [findCreditsRecords_fallback_err p amounts u nonces sp e h' hgl]
        simp [Outcome.isThrown, fallbackFires, heightLookupFails, h', hgl]
      · rw [findCreditsRecords_fallback_ok p amounts u nonces sp t h' hgl]
        simp [Outcome.isThrown, fallbackFires, heightLookupFails, h', hgl]

/-- The single-record search rejects exactly when its singleton batch call
rejects. -/
theorem findCreditsRecord_isThrown (p : NetworkRecordProvider) (A : Int) (u : Bool)
    (nonces : Option (List String)) (spo : Option RecordSearchParams) :
    (p.findCreditsRecord A u nonces spo).1.isThrown =
      (p.findCreditsRecords [A] u nonces spo).1.isThrown := by
  unfold NetworkRecordProvider.findCreditsRecord
  rcases h : p.findCreditsRecords [A] u nonces spo with ⟨o, tr⟩
  rcases o with v | t
  · rcases v with e | rs
    · simp [Outcome.isThrown]
    · rcases rs with _ | ⟨r, rs⟩ <;> simp [Outcome.isThrown]
  · simp [Outcome.isThrown]

/-- A list a `findCreditsRecords` call resolves to is a value the collaborator
returned for a query carrying the account credential, the requested amounts, no
program filter and the caller nonces. -/
theorem batch_ok_from_collaborator (p : NetworkRecordProvider) (amounts : List Int)
    (u : Bool) (nonces : Option (List String)) (spo : Option RecordSearchParams)
    (rs : List RecordPlaintext)
    (h : (p.findCreditsRecords amounts u nonces spo).1 = .ok (.ok rs)) :
    ∃ sh eh, p.networkClient.findUnspentRecords sh eh p.account.privateKey
      amounts none nonces = .ok rs := by
  rcases findCreditsRecords_cases p amounts u nonces spo with hC | ⟨sh, eh, c, hC⟩
  · rw [hC] at h
    exact absurd h (by simp)
  · rw [hC] at h
    exact ⟨sh, eh, Outcome.ok.inj h⟩

/-- C1: evaluation at the failing input.  With the `searchParameters` argument
absent, no numeric `endHeight` is supplied, yet `getLatestHeight` is never
invoked (zero calls, where the claim requires exactly one) and the delegated
query runs with `endHeight = 0` instead of the chain tip.  The claim also fails
when a numeric `endHeight` equal to 0 is supplied, since 0 is falsy and the
fallback fires anyway. -/
theorem C1_no_fallback_when_params_absent :
    (P0.findCreditsRecords [5000] true none none).2.latestHeightCalls = 0 ∧
    ((P0.findCreditsRecords [5000] true none none).2.unspentQueries.map
      FindUnspentQuery.endHeight) = [.num 0] := by
  decide

/-- C2: evaluation at the failing input.  With the bag containing
`startHeight: 10` and no `endHeight`, the claim requires the delegated query to
start at 10; the code ignores the supplied value, because the guard on the
`startHeight` assignment tests the type of the `endHeight` entry, and queries
with `startHeight = 0` after one chain-tip lookup. -/
theorem C2_startHeight_ignored :
    ((P0.findCreditsRecords [100] true none (some startOnlyParams)).2.unspentQueries.map
      FindUnspentQuery.startHeight) = [.num 0] ∧
    (P0.findCreditsRecords [100] true none (some startOnlyParams)).2.latestHeightCalls = 1 := by
  decide

/-- C3 counterexample: `findRecords` rejects, throwing
`Error("Method not implemented.")` past the public contract boundary, rather
than resolving with a typed Error value; so not every failure of the four
public operations is surfaced as a returned value. -/
theorem C3_findRecords_rejects :
    (P0.findRecords true none none).1 = .exn (.errVal ⟨"Method not implemented."⟩) ∧
    (P0.findRecords true none none).1.isThrown = true := by
  decide

/-- C3 amended: `findCreditsRecords` and `findCreditsRecord` reject exactly
when the chain-tip fallback fires and the chain-tip lookup fails, and then the
thrown value is the string `Unable to get current block height`; all their
other failures are resolved typed Error values.  `findRecord` and `findRecords`
always reject. -/
theorem C3_throw_characterization (p : NetworkRecordProvider) (amounts : List Int)
    (A : Int) (u : Bool) (nonces : Option (List String))
    (spo : Option RecordSearchParams) :
    ((p.findCreditsRecords amounts u nonces spo).1.isThrown =
      (fallbackFires spo && heightLookupFails p.networkClient)) ∧
    ((p.findCreditsRecord A u nonces spo).1.isThrown =
      (fallbackFires spo && heightLookupFails p.networkClient)) ∧
    (p.findRecord u nonces spo).1.isThrown = true ∧
    (p.findRecords u nonces spo).1.isThrown = true ∧
    (match (p.findCreditsRecords amounts u nonces spo).1 with
     | .exn t => t = .strVal "Unable to get current block height"
     | .ok _ => True) := by
  refine ⟨findCreditsRecords_isThrown p amounts u nonces spo, ?_, rfl, rfl, ?_⟩
  · rw [findCreditsRecord_isThrown, findCreditsRecords_isThrown]
  · rcases findCreditsRecords_cases p amounts u nonces spo with h | ⟨sh, eh, c, h⟩ <;>
      simp [h]

/-- C4: every `findCreditsRecords` call that does not reject delegates exactly
once to the collaborator `findUnspentRecords`, with the resolved heights, the
account private credential, the full amount list, no program filter and the
caller exclusion nonces, and resolves to the collaborator answer verbatim; a
rejected call issues no query at all. -/
theorem C4_single_delegation (p : NetworkRecordProvider) (amounts : List Int)
    (u : Bool) (nonces : Option (List String)) (spo : Option RecordSearchParams) :
    if (p.findCreditsRecords amounts u nonces spo).1.isThrown = true then
      (p.findCreditsRecords amounts u nonces spo).2.unspentQueries = []
    else
      ∃ sh eh,
        (p.findCreditsRecords amounts u nonces spo).2.unspentQueries =
          [⟨sh, eh, p.account.privateKey, amounts, none, nonces⟩] ∧
        (p.findCreditsRecords amounts u nonces spo).1 =
          .ok (p.networkClient.findUnspentRecords sh eh p.account.privateKey
            amounts none nonces) := by
  rcases findCreditsRecords_cases p amounts u nonces spo with h | ⟨sh, eh, c, h⟩
  · rw [h]
    simp [Outcome.isThrown]
  · rw [h]
    simp only [Outcome.isThrown, Bool.false_eq_true, if_false]
    exact ⟨sh, eh, rfl, rfl⟩

/-- C5 counterexample: with a present but empty parameter bag and a collaborator
whose chain-tip lookup fails, the batch result is not a non-Error sequence, yet
`findCreditsRecord` does not return `Error("Record not found")`: it rejects with
the thrown height-resolution string. -/
theorem C5_reject_propagates :
    (PDown.findCreditsRecord 5000 true none (some emptyParams)).1 =
      .exn (.strVal "Unable to get current block height") ∧
    ¬ (PDown.findCreditsRecord 5000 true none (some emptyParams)).1 =
        .ok (.error ⟨"Record not found"⟩) := by
  decide

/-- C5 amended: `findCreditsRecord A` resolves to the first element of
`findCreditsRecords [A]` whenever the batch call resolves to a non-Error
sequence with at least one element, resolves to `Error("Record not found")`
whenever the batch call resolves to an empty sequence or an Error value, and
rejects with the identical thrown value whenever the batch call rejects. -/
theorem C5_first_of_batch (p : NetworkRecordProvider) (A : Int) (u : Bool)
    (nonces : Option (List String)) (spo : Option RecordSearchParams) :
    (p.findCreditsRecord A u nonces spo).1 =
      (match (p.findCreditsRecords [A] u nonces spo).1 with
       | .exn t => .exn t
       | .ok (.ok (r :: _)) => .ok (.ok r)
       | .ok (.ok []) => .ok (.error ⟨"Record not found"⟩)
       | .ok (.error _) => .ok (.error ⟨"Record not found"⟩)) := by
  unfold NetworkRecordProvider.findCreditsRecord
  rcases h : p.findCreditsRecords [A] u nonces spo with ⟨o, tr⟩
  rcases o with v | t
  · rcases v with e | rs
    · simp
    · rcases rs with _ | ⟨r, rs⟩ <;> simp
  · simp

/-- C6: for every provider and every input, `findRecord` and `findRecords`
fail immediately by throwing `Error("Method not implemented.")`, performing no
chain-tip lookup and no collaborator query. -/
theorem C6_unimplemented (p : NetworkRecordProvider) (u : Bool)
    (nonces : Option (List String)) (spo : Option RecordSearchParams) :
    p.findRecord u nonces spo =
      (.exn (.errVal ⟨"Method not implemented."⟩), ⟨0, []⟩) ∧
    p.findRecords u nonces spo =
      (.exn (.errVal ⟨"Method not implemented."⟩), ⟨0, []⟩) :=
  ⟨rfl, rfl⟩

/-- C7: when the chain-tip fallback fires and `getLatestHeight` returns an
Error, the `findCreditsRecords` call aborts with the descriptive failure
`Unable to get current block height`, issues no `findUnspentRecords` query, and
produces no record result. -/
theorem C7_fatal_height_failure (p : NetworkRecordProvider) (amounts : List Int)
    (u : Bool) (nonces : Option (List String)) (sp : RecordSearchParams) (e : Error)
    (hfb : fallbackFires (some sp) = true)
    (herr : p.networkClient.getLatestHeight = .error e) :
    p.findCreditsRecords amounts u nonces (some sp) =
      (.exn (.strVal "Unable to get current block height"), ⟨1, []⟩) := by
  have h : (truthy (sp "endHeight") && isNumberType (sp "endHeight")) = false := by
    cases hb : (truthy (sp "endHeight") && isNumberType (sp "endHeight")) with
    | false => rfl
    | true =>
        simp only [fallbackFires] at hfb
        rw [hb] at hfb
        simp at hfb
  exact findCreditsRecords_fallback_err p amounts u nonces sp e h herr

/-- C7 witness: the failing-chain-tip provider with an empty parameter bag. -/
theorem C7_fatal_height_failure_witness :
    fallbackFires (some emptyParams) = true ∧
    PDown.networkClient.getLatestHeight = .error ⟨"connection refused"⟩ ∧
    PDown.findCreditsRecords [5000] true none (some emptyParams) =
      (.exn (.strVal "Unable to get current block height"), ⟨1, []⟩) :=
  ⟨by decide, rfl,
    C7_fatal_height_failure PDown [5000] true none emptyParams
      ⟨"connection refused"⟩ (by decide) rfl⟩

/-- C8: if the collaborator never returns a record whose nonce lies in the
exclusion list it was handed, then no record resolved by `findCreditsRecords`
or `findCreditsRecord` has a nonce in the caller exclusion list. -/
theorem C8_exclusion (p : NetworkRecordProvider) (amounts : List Int) (A : Int)
    (u : Bool) (ns : List String) (spo : Option RecordSearchParams)
    (hc : ∀ sh eh pk am pf rs,
        p.networkClient.findUnspentRecords sh eh pk am pf (some ns) = .ok rs →
        ∀ r ∈ rs, r.nonce ∉ ns) :
    (match (p.findCreditsRecords amounts u (some ns) spo).1 with
     | .ok (.ok rs) => ∀ r ∈ rs, r.nonce ∉ ns
     | _ => True) ∧
    (match (p.findCreditsRecord A u (some ns) spo).1 with
     | .ok (.ok r) => r.nonce ∉ ns
     | _ => True) := by
  constructor
  · split
    · next rs heq =>
        obtain ⟨sh, eh, hq⟩ :=
          batch_ok_from_collaborator p amounts u (some ns) spo rs heq
        exact hc sh eh p.account.privateKey amounts none rs hq
    · trivial
  · split
    · next r heq =>
        obtain ⟨rest, hb⟩ := findCreditsRecord_ok_head p A u (some ns) spo r heq
        obtain ⟨sh, eh, hq⟩ :=
          batch_ok_from_collaborator p [A] u (some ns) spo (r :: rest) hb
        exact hc sh eh p.account.privateKey [A] none (r :: rest) hq r
          (List.mem_cons_self r rest)
    · trivial

/-- C8 witness: a collaborator holding one record with nonce `recA`, searched
with the exclusion list `["nonce1"]`. -/
theorem C8_exclusion_witness :
    (match (PRec.findCreditsRecords [5000] true (some ["nonce1"]) none).1 with
     | .ok (.ok rs) => ∀ r ∈ rs, r.nonce ∉ ["nonce1"]
     | _ => True) ∧
    (match (PRec.findCreditsRecord 5000 true (some ["nonce1"]) none).1 with
     | .ok (.ok r) => r.nonce ∉ ["nonce1"]
     | _ => True) := by
  refine C8_exclusion PRec [5000] 5000 true ["nonce1"] none ?_
  intro sh eh pk am pf rs h r hr
  have hrs : rs = [(⟨"recA"⟩ : RecordPlaintext)] :=
    (Except.ok.inj h).symm
  rw [hrs] at hr
  have hr' : r = (⟨"recA"⟩ : RecordPlaintext) := by simpa using hr
  rw [hr']
  decide

/-- C9: `setAccount` replaces the stored account with exactly the given one and
leaves the network client unchanged, and every query any subsequent search
issues carries the private credential of the new account. -/
theorem C9_setAccount_frame (p : NetworkRecordProvider) (a : Account) :
    (p.setAccount a).account = a ∧
    (p.setAccount a).networkClient = p.networkClient ∧
    (∀ amounts u nonces spo,
      (((p.setAccount a).findCreditsRecords amounts u nonces spo).2.unspentQueries.all
        fun q => q.privateKey == a.privateKey) = true) ∧
    (∀ A u nonces spo,
      (((p.setAccount a).findCreditsRecord A u nonces spo).2.unspentQueries.all
        fun q => q.privateKey == a.privateKey) = true) := by
  refine ⟨rfl, rfl, ?_, ?_⟩
  · intro amounts u nonces spo
    rcases findCreditsRecords_cases (p.setAccount a) amounts u nonces spo with
      h | ⟨sh, eh, c, h⟩ <;> rw [h] <;> simp [NetworkRecordProvider.setAccount]
  · intro A u nonces spo
    rw [findCreditsRecord_trace]
    rcases findCreditsRecords_cases (p.setAccount a) [A] u nonces spo with
      h | ⟨sh, eh, c, h⟩ <;> rw [h] <;> simp [NetworkRecordProvider.setAccount]

/-- C10: the `unspent` flag has no influence: two calls to `findCreditsRecords`
or `findCreditsRecord` identical except for the flag produce the same outcome
and the same collaborator trace. -/
theorem C10_unspent_irrelevant (p : NetworkRecordProvider) (amounts : List Int)
    (A : Int) (nonces : Option (List String)) (spo : Option RecordSearchParams)
    (u1 u2 : Bool) :
    p.findCreditsRecords amounts u1 nonces spo =
      p.findCreditsRecords amounts u2 nonces spo ∧
    p.findCreditsRecord A u1 nonces spo = p.findCreditsRecord A u2 nonces spo :=
  ⟨rfl, rfl⟩

end Sdk
